import Mathlib

set_option maxHeartbeats 1000000

namespace R4N

/-- Job status, from the `Literal["queued", "success", "failure"]` annotation in
`src/cogs/eurocore.py`. -/
inductive Status
  | queued
  | success
  | failure
deriving DecidableEq

/-- Job action, from the `Literal["add", "edit", "remove"]` annotation in
`src/cogs/eurocore.py`. -/
inductive Action
  | add
  | edit
  | remove
deriving DecidableEq

/-- The wire-level snapshot returned by `GET /queue/dispatch/{id}` and consumed by
`Job.update` in `src/cogs/eurocore.py` (lines 70-79): the fields the update reads.
Timestamps are modelled as integers (seconds). -/
structure JobDescriptor where
  status : Status
  modified_at : Int
  dispatch_id : Option Int
  error : Option String
deriving DecidableEq

/-- The `Job` record of `src/cogs/eurocore.py` (lines 14-47).  `user` is modelled by
the owning user's id (`user_id`), and the Discord message handle by an optional
numeric handle. -/
structure Job where
  id : Nat
  user_id : Nat
  action : Action
  created_at : Int
  modified_at : Int
  status : Status
  dispatch_id : Option Int
  error : Option String
  ping_on_completion : Bool
  message : Option Nat
deriving DecidableEq

/-- `Job.update` (lines 70-79): overwrites `status`, `modified_at`, `dispatch_id`
and `error` from the fetched descriptor.  The message re-render performed inside
`update` is recorded at the sweep level (`renders`). -/
def Job.update (j : Job) (d : JobDescriptor) : Job :=
  { j with
    status := d.status
    modified_at := d.modified_at
    dispatch_id := d.dispatch_id
    error := d.error }

/-- `Job.set_message` (lines 52-53). -/
def Job.set_message (j : Job) (m : Nat) : Job :=
  { j with message := some m }

/-- The observable outcome of one execution of the `poll_jobs` task body:
the registry contents afterwards, the job ids whose message was re-rendered
(`message.edit` inside `Job.update`), the pings sent (`message.reply` with a
mention of the owner, recorded as (job id, owner user id)), and whether the tick
was aborted by an exception escaping a job's fetch. -/
structure PollResult where
  jobs : List Job
  renders : List Nat
  pings : List (Nat × Nat)
  aborted : Bool
deriving DecidableEq

/-- The per-job loop body of `poll_jobs` (lines 175-180).  `fetch j.id = none`
models the status request raising (network failure, non-2xx, malformed payload):
in the Python the exception propagates, so the remaining jobs are left untouched
and the tick is aborted; jobs already processed keep their in-place updates. -/
def sweep (fetch : Nat → Option JobDescriptor) : List Job → PollResult
  | [] => { jobs := [], renders := [], pings := [], aborted := false }
  | j :: rest =>
    match fetch j.id with
    | none => { jobs := j :: rest, renders := [], pings := [], aborted := true }
    | some d =>
      let j2 := Job.update j d
      let r := sweep fetch rest
      { jobs := j2 :: r.jobs
        renders := j.id :: r.renders
        pings :=
          (if j2.status ≠ Status.queued ∧ j2.ping_on_completion then
            [(j2.id, j2.user_id)] else []) ++ r.pings
        aborted := r.aborted }

/-- `poll_jobs` (lines 171-182): run the per-job loop, then, if no exception
escaped, rebuild the registry keeping only the jobs still in `queued` status
(line 182).  When the loop raised, the dict rebuild never runs. -/
def poll_jobs (fetch : Nat → Option JobDescriptor) (jobs : List Job) : PollResult :=
  let r := sweep fetch jobs
  if r.aborted then r
  else { r with jobs := r.jobs.filter (fun j => j.status == Status.queued) }

/-- What one sweep iteration does to a single job: updated when its fetch
succeeds, untouched when it raises.  Used to state sweep-level lemmas. -/
def updWith (fetch : Nat → Option JobDescriptor) (j : Job) : Job :=
  match fetch j.id with
  | some d => Job.update j d
  | none => j

/-- The ping, if any, that the sweep emits for a single job. -/
def pingTarget (fetch : Nat → Option JobDescriptor) (j : Job) : Option (Nat × Nat) :=
  match fetch j.id with
  | some d =>
    if d.status ≠ Status.queued ∧ j.ping_on_completion then some (j.id, j.user_id)
    else none
  | none => none

/-- A eurocore user, from `components/user.py` (not part of the sources).
Modelled from the spec: a `UserSession` carries the identity, display name,
credential material, bearer token and the last-authentication timestamp
(`last_login`, in hours). -/
structure User where
  id : Nat
  name : String
  password : String
  token : Nat
  last_login : Int
deriving DecidableEq

/-- Modelled from the spec: `Bot.sign_in` lives in `components/bot.py`, which is
not part of the sources; per the spec it re-authenticates against the remote API
using the session's stored credential material, replacing the bearer token and
the last-authentication timestamp in place. -/
def sign_in (now : Int) (fresh_token : Nat) (u : User) : User :=
  { u with token := fresh_token, last_login := now }

/-- Modelled from the spec: `UserList` lookup from `components/user.py` (not part
of the sources) — the per-identity session cache, at most one session per id. -/
def lookup_user (user_list : List (Nat × User)) (uid : Nat) : Option User :=
  (user_list.find? (fun p => p.1 == uid)).map Prod.snd

/-- Modelled from the spec: `UserList.add_user` from `components/user.py` (not
part of the sources) — caches the session for the identity, replacing any
previous one. -/
def add_user (user_list : List (Nat × User)) (uid : Nat) (u : User) :
    List (Nat × User) :=
  if user_list.any (fun p => p.1 == uid) then
    user_list.map (fun p => if p.1 == uid then (uid, u) else p)
  else user_list ++ [(uid, u)]

/-- The outcome of `Eurocore.get_user` (lines 192-203): the returned session, the
cache afterwards, whether the login modal (credential provider) was shown, and
how many `sign_in` calls were made. -/
structure GetUserResult where
  user : User
  user_list : List (Nat × User)
  modal_shown : Bool
  sign_in_calls : Nat
deriving DecidableEq

/-- `Eurocore.get_user` (lines 192-203).  If the identity is not cached, the
login modal is shown: on submit (`creds = some (name, password)`,
`LoginModal.on_submit`, lines 137-149) a fresh `User` is signed in and cached; if
the modal yields nothing the subsequent cache lookup raises `KeyError`, modelled
as `none`.  Then, if more than 12 hours have passed since `last_login`, the
session is signed in again in place before being returned. -/
def get_user (now : Int) (fresh_token : Nat) (creds : Option (String × String))
    (user_list : List (Nat × User)) (uid : Nat) : Option GetUserResult :=
  let step1 :=
    if (lookup_user user_list uid).isSome then (user_list, false, 0)
    else
      match creds with
      | some c =>
        let u := sign_in now fresh_token
          { id := uid, name := c.1, password := c.2, token := 0, last_login := 0 }
        (add_user user_list uid u, true, 1)
      | none => (user_list, true, 0)
  match lookup_user step1.1 uid with
  | none => none
  | some u =>
    if now - u.last_login > 12 then
      let u2 := sign_in now fresh_token u
      some { user := u2, user_list := add_user step1.1 uid u2,
             modal_shown := step1.2.1, sign_in_calls := step1.2.2 + 1 }
    else
      some { user := u, user_list := step1.1,
             modal_shown := step1.2.1, sign_in_calls := step1.2.2 }

/-- A Discord attachment as the dispatch commands see it: its content type and
its decoded text. -/
structure Attachment where
  content_type : String
  data : String
deriving DecidableEq

/-- The JSON body the dispatch commands build (lines 291-297 and 333-338).
`nation` is present only for the add command. -/
structure DispatchPayload where
  title : String
  nation : Option String
  category : Nat
  subcategory : Nat
  text : String
deriving DecidableEq

/-- The HTTP request the `Eurocore.dispatch` helper is asked to perform (method,
optional JSON body, optional dispatch id in the URL, ping flag). -/
structure DispatchRequest where
  method : String
  payload : Option DispatchPayload
  dispatch_id : Option Nat
  ping : Bool
deriving DecidableEq

/-- `int(str(category.value)[:1])` (lines 294 and 335): the first character of
the decimal representation of the chosen subcategory value, parsed back as an
integer.  `Nat.toDigits 10 v` is the decimal digit-character string of `v`. -/
def category_digit (v : Nat) : Nat :=
  ((Nat.toDigits 10 v).headD '0').toNat - '0'.toNat

/-- `Eurocore.add_dispatch` (lines 276-299) up to the `dispatch` call: reject the
submission when the attachment is not a UTF-8 text file, otherwise build the
payload and request a POST.  An `Except.error` result means the command raised
`UserInputError` before any remote call was made and before any job was created
or tracked. -/
def add_dispatch (title : String) (nation : String) (category_value : Nat)
    (content : Attachment) (ping : Bool) : Except String DispatchRequest :=
  if ¬ content.content_type = "text/plain; charset=utf-8" then
    Except.error "content must be a .txt file"
  else
    Except.ok
      { method := "POST"
        payload := some
          { title := title, nation := some nation
            category := category_digit category_value
            subcategory := category_value, text := content.data }
        dispatch_id := none, ping := ping }

/-- `Eurocore.edit_dispatch` (lines 319-340) up to the `dispatch` call, as for
`add_dispatch` but with a PUT to `/dispatch/{id}` and no nation field. -/
def edit_dispatch (title : String) (dispatch_id : Nat) (category_value : Nat)
    (content : Attachment) (ping : Bool) : Except String DispatchRequest :=
  if ¬ content.content_type = "text/plain; charset=utf-8" then
    Except.error "content must be a .txt file"
  else
    Except.ok
      { method := "PUT"
        payload := some
          { title := title, nation := none
            category := category_digit category_value
            subcategory := category_value, text := content.data }
        dispatch_id := some dispatch_id, ping := ping }

/-- The JSON body returned by the remote API to a dispatch submission (lines
220-230 read these fields). -/
structure DispatchResponse where
  id : Nat
  action : Action
  created_at : Int
  modified_at : Int
  status : Status
  dispatch_id : Option Int
  error : Option String
deriving DecidableEq

/-- The `Job(...)` construction inside `Eurocore.dispatch` (lines 220-230): every
lifecycle field is copied from the remote response; the constructor leaves
`message` unset. -/
def mk_job (user_id : Nat) (ping : Bool) (r : DispatchResponse) : Job :=
  { id := r.id, user_id := user_id, action := r.action
    created_at := r.created_at, modified_at := r.modified_at
    status := r.status, dispatch_id := r.dispatch_id, error := r.error
    ping_on_completion := ping, message := none }

/-- `self.jobs[job.id] = job` (line 240): Python dict assignment — replace in
place when the key exists, append otherwise. -/
def registry_insert (jobs : List Job) (j : Job) : List Job :=
  if jobs.any (fun k => k.id == j.id) then
    jobs.map (fun k => if k.id == j.id then j else k)
  else jobs ++ [j]

/-- The tail of `Eurocore.dispatch` (lines 220-240): build the job from the
remote response, attach the message that rendered its initial embed, and insert
it into the registry. -/
def dispatch (user_id : Nat) (r : DispatchResponse) (ping : Bool)
    (message_id : Nat) (jobs : List Job) : List Job :=
  registry_insert jobs ((mk_job user_id ping r).set_message message_id)

/-- A queued job used in concrete evaluations. -/
def sample_job (i : Nat) : Job :=
  { id := i, user_id := 100 + i, action := Action.add
    created_at := 0, modified_at := 0, status := Status.queued
    dispatch_id := none, error := none
    ping_on_completion := false, message := some i }

/-- `sample_job` with the completion ping requested. -/
def sample_job_ping (i : Nat) : Job :=
  { sample_job i with ping_on_completion := true }

/-- A terminal success descriptor used in concrete evaluations. -/
def success_desc : JobDescriptor :=
  { status := Status.success, modified_at := 5, dispatch_id := some 9001,
    error := none }

/-- A queued descriptor used in concrete evaluations. -/
def queued_desc : JobDescriptor :=
  { status := Status.queued, modified_at := 3, dispatch_id := none,
    error := none }

/-- Fetch behaviour for the C1 scenario: job 1's status request raises, job 2's
succeeds with a terminal descriptor. -/
def fetch_err_first : Nat → Option JobDescriptor
  | 2 => some success_desc
  | _ => none

/-- Fetch behaviour for concrete non-aborting sweeps: job 3 completes, job 4
stays queued, everything else errors. -/
def fetch_mixed : Nat → Option JobDescriptor
  | 3 => some success_desc
  | 4 => some queued_desc
  | _ => none

/-- A job already in a terminal state, for the C2 scenario. -/
def done_job : Job :=
  { sample_job 1 with status := Status.success }

/-- A remote response that reports the submission already succeeded, for the C8
scenario. -/
def success_response : DispatchResponse :=
  { id := 42, action := Action.add, created_at := 0, modified_at := 0
    status := Status.success, dispatch_id := some 9001, error := none }

/-- A cached user session, for the C5 scenario. -/
def cached_user : User :=
  { id := 7, name := "upc", password := "hunter22", token := 5, last_login := 100 }

end R4N

namespace R4N

theorem updWith_id (fetch : Nat → Option JobDescriptor) (j : Job) :
    (updWith fetch j).id = j.id := by
  unfold updWith
  cases fetch j.id <;> rfl

theorem updWith_of_fetch (fetch : Nat → Option JobDescriptor) (j : Job)
    (d : JobDescriptor) (hd : fetch j.id = some d) :
    updWith fetch j = Job.update j d := by
  unfold updWith
  rw [hd]

theorem sweep_noabort (fetch : Nat → Option JobDescriptor) (jobs : List Job)
    (h : (sweep fetch jobs).aborted = false) :
    (sweep fetch jobs).jobs = jobs.map (updWith fetch) ∧
    (sweep fetch jobs).renders = jobs.map Job.id ∧
    (sweep fetch jobs).pings = jobs.filterMap (pingTarget fetch) := by
  induction jobs with
  | nil => simp [sweep]
  | cons j rest ih =>
    cases hf : fetch j.id with
    | none => simp [sweep, hf] at h
    | some d =>
      have h2 : (sweep fetch rest).aborted = false := by
        simpa [sweep, hf] using h
      obtain ⟨e1, e2, e3⟩ := ih h2
      have hp : pingTarget fetch j =
          if d.status ≠ Status.queued ∧ j.ping_on_completion then
            some (j.id, j.user_id)
          else none := by
        unfold pingTarget
        rw [hf]
      refine ⟨?_, ?_, ?_⟩
      · simp [sweep, hf, Job.update, updWith, e1]
      · simp [sweep, hf, e2]
      · rw [List.filterMap_cons, hp]
        by_cases hc : d.status ≠ Status.queued ∧ j.ping_on_completion
        · simp [sweep, hf, Job.update, hc, e3]
        · simp [sweep, hf, Job.update, hc, e3]

theorem poll_jobs_aborted (fetch : Nat → Option JobDescriptor) (jobs : List Job) :
    (poll_jobs fetch jobs).aborted = (sweep fetch jobs).aborted := by
  unfold poll_jobs
  by_cases h : (sweep fetch jobs).aborted <;> simp [h]

theorem poll_jobs_noabort (fetch : Nat → Option JobDescriptor) (jobs : List Job)
    (h : (sweep fetch jobs).aborted = false) :
    (poll_jobs fetch jobs).jobs =
      (jobs.map (updWith fetch)).filter (fun j => j.status == Status.queued) ∧
    (poll_jobs fetch jobs).renders = jobs.map Job.id ∧
    (poll_jobs fetch jobs).pings = jobs.filterMap (pingTarget fetch) := by
  obtain ⟨e1, e2, e3⟩ := sweep_noabort fetch jobs h
  unfold poll_jobs
  simp [h, e1, e2, e3]

/-- Claim C2 counterexample: `Job.update` applied to a job whose status is the
terminal value `success` with a descriptor reporting `queued` moves the status
back to `queued` — the code does not enforce terminal-state monotonicity. -/
theorem job_update_terminal_counterexample :
    done_job.status = Status.success ∧
    (done_job.update queued_desc).status = Status.queued := by
  constructor <;> rfl

/-- Claim C2 (amended): `Job.update` unconditionally overwrites the job's status
with the fetched descriptor's status, whatever the prior status was; terminal
statuses persist only as long as the remote keeps reporting them, and a terminal
job is normally shielded from further updates only by being removed from the
registry after a completed tick. -/
theorem job_update_status_from_descriptor (j : Job) (d : JobDescriptor) :
    (j.update d).status = d.status := rfl

/-- Claim C6: `Job.update` overwrites exactly `status`, `modified_at`,
`dispatch_id` and `error`, and leaves `id`, `user_id` (owner), `action`,
`created_at`, `ping_on_completion` and the message handle unchanged. -/
theorem job_update_frame (j : Job) (d : JobDescriptor) :
    (j.update d).status = d.status ∧
    (j.update d).modified_at = d.modified_at ∧
    (j.update d).dispatch_id = d.dispatch_id ∧
    (j.update d).error = d.error ∧
    (j.update d).id = j.id ∧
    (j.update d).user_id = j.user_id ∧
    (j.update d).action = j.action ∧
    (j.update d).created_at = j.created_at ∧
    (j.update d).ping_on_completion = j.ping_on_completion ∧
    (j.update d).message = j.message :=
  ⟨rfl, rfl, rfl, rfl, rfl, rfl, rfl, rfl, rfl, rfl⟩

/-- Claim C9 counterexample: `Job.update` copies the remote `modified_at`
verbatim, so a second update whose descriptor carries an earlier timestamp
strictly decreases `modified_at`. -/
theorem job_update_modified_at_counterexample :
    ¬ ((((sample_job 1).update success_desc).update queued_desc).modified_at ≥
        ((sample_job 1).update success_desc).modified_at) := by
  decide

/-- Claim C9 (amended): `modified_at` after an update equals the descriptor's
timestamp, so it is non-decreasing across successive updates exactly when the
fetched descriptors' timestamps are non-decreasing. -/
theorem job_update_modified_at_monotone (j : Job) (d1 d2 : JobDescriptor)
    (h : d1.modified_at ≤ d2.modified_at) :
    ((j.update d1).update d2).modified_at ≥ (j.update d1).modified_at := h

/-- Witness for `job_update_modified_at_monotone` at concrete inputs. -/
theorem job_update_modified_at_monotone_witness :
    queued_desc.modified_at ≤ success_desc.modified_at ∧
    (((sample_job 2).update queued_desc).update success_desc).modified_at ≥
      ((sample_job 2).update queued_desc).modified_at :=
  ⟨by decide,
   job_update_modified_at_monotone (sample_job 2) queued_desc success_desc
     (by decide)⟩

/-- Claim C7: a dispatch add or edit submission whose attachment is not a
`text/plain; charset=utf-8` file is rejected with `UserInputError` — no HTTP
request is produced, so no remote call is made and no job is created or
tracked. -/
theorem dispatch_content_type_rejected (title nation : String)
    (category_value dispatch_id : Nat) (content : Attachment) (ping : Bool)
    (h : content.content_type ≠ "text/plain; charset=utf-8") :
    add_dispatch title nation category_value content ping =
      Except.error "content must be a .txt file" ∧
    edit_dispatch title dispatch_id category_value content ping =
      Except.error "content must be a .txt file" := by
  constructor <;> simp [add_dispatch, edit_dispatch, h]

/-- Witness for `dispatch_content_type_rejected` at concrete inputs. -/
theorem dispatch_content_type_rejected_witness :
    (Attachment.mk "application/pdf" "raw" ).content_type ≠
      "text/plain; charset=utf-8" ∧
    (add_dispatch "t" "n" 305 (Attachment.mk "application/pdf" "raw") true =
      Except.error "content must be a .txt file" ∧
    edit_dispatch "t" 9 305 (Attachment.mk "application/pdf" "raw") true =
      Except.error "content must be a .txt file") :=
  ⟨by decide,
   dispatch_content_type_rejected "t" "n" 305 9
     (Attachment.mk "application/pdf" "raw") true (by decide)⟩

/-- Claim C8 counterexample: when the remote response to a submission already
reports status `success`, `Eurocore.dispatch` inserts the job into the registry
with status `success`, not `queued`. -/
theorem dispatch_track_status_counterexample :
    (mk_job 1 false success_response).set_message 5 ∈
      dispatch 1 success_response false 5 [] ∧
    ((mk_job 1 false success_response).set_message 5).status ≠ Status.queued := by
  decide

/-- Claim C8 (amended): the job inserted by a submission carries exactly the
status reported in the remote response — it is tracked in `queued` status iff
the response says `queued`. -/
theorem dispatch_tracks_response_status (user_id : Nat) (r : DispatchResponse)
    (ping : Bool) (message_id : Nat) (jobs : List Job) :
    (mk_job user_id ping r).set_message message_id ∈
      dispatch user_id r ping message_id jobs ∧
    ((mk_job user_id ping r).set_message message_id).status = r.status := by
  refine ⟨?_, rfl⟩
  unfold dispatch registry_insert
  by_cases h : jobs.any
      (fun k => k.id == ((mk_job user_id ping r).set_message message_id).id)
  · rw [if_pos h]
    obtain ⟨k, hk, he⟩ := List.any_eq_true.mp h
    exact List.mem_map.mpr ⟨k, hk, by rw [if_pos he]⟩
  · rw [if_neg h]
    simp

/-- Claim C10: for every chosen subcategory value from the command's fixed
choice list, the payload's `category` field is the first decimal digit of that
value (`v / 100` for these three-digit values) and `subcategory` is the value
itself, in both the add and the edit command. -/
theorem dispatch_category_first_digit (title nation text : String)
    (dispatch_id : Nat) (ping : Bool) (v : Nat)
    (hv : v = 305 ∨ v = 315 ∨ v = 325 ∨ v = 385 ∨ v = 835 ∨ v = 845) :
    add_dispatch title nation v
        (Attachment.mk "text/plain; charset=utf-8" text) ping =
      Except.ok
        { method := "POST"
          payload := some
            { title := title, nation := some nation, category := v / 100
              subcategory := v, text := text }
          dispatch_id := none, ping := ping } ∧
    edit_dispatch title dispatch_id v
        (Attachment.mk "text/plain; charset=utf-8" text) ping =
      Except.ok
        { method := "PUT"
          payload := some
            { title := title, nation := none, category := v / 100
              subcategory := v, text := text }
          dispatch_id := some dispatch_id, ping := ping } := by
  have hcd : category_digit v = v / 100 := by
    rcases hv with h | h | h | h | h | h <;> subst h <;> decide
  constructor <;> simp [add_dispatch, edit_dispatch, hcd]

/-- Witness for `dispatch_category_first_digit` at concrete inputs. -/
theorem dispatch_category_first_digit_witness :
    ((305 : Nat) = 305 ∨ (305 : Nat) = 315 ∨ (305 : Nat) = 325 ∨
      (305 : Nat) = 385 ∨ (305 : Nat) = 835 ∨ (305 : Nat) = 845) ∧
    (add_dispatch "t" "n" 305
        (Attachment.mk "text/plain; charset=utf-8" "body") true =
      Except.ok
        { method := "POST"
          payload := some
            { title := "t", nation := some "n", category := 305 / 100
              subcategory := 305, text := "body" }
          dispatch_id := none, ping := true } ∧
    edit_dispatch "t" 9 305
        (Attachment.mk "text/plain; charset=utf-8" "body") true =
      Except.ok
        { method := "PUT"
          payload := some
            { title := "t", nation := none, category := 305 / 100
              subcategory := 305, text := "body" }
          dispatch_id := some 9, ping := true }) :=
  ⟨Or.inl rfl,
   dispatch_category_first_digit "t" "n" "body" 9 true 305 (Or.inl rfl)⟩

theorem sweep_abort (fetch : Nat → Option JobDescriptor) (pre : List Job)
    (j : Job) (post : List Job)
    (hpre : ∀ k ∈ pre, (fetch k.id).isSome)
    (hj : fetch j.id = none) :
    (sweep fetch (pre ++ j :: post)).aborted = true ∧
    (sweep fetch (pre ++ j :: post)).jobs =
      pre.map (updWith fetch) ++ j :: post := by
  induction pre with
  | nil => simp [sweep, hj]
  | cons k pre2 ih =>
    have hk : (fetch k.id).isSome := hpre k (by simp)
    obtain ⟨d, hd⟩ := Option.isSome_iff_exists.mp hk
    obtain ⟨a1, a2⟩ := ih (fun x hx => hpre x (by simp [hx]))
    constructor
    · simp [sweep, hd, a1]
    · simp [sweep, hd, a2, updWith_of_fetch fetch k d hd]

/-- Claim C1 counterexample: job 1's status fetch raises, job 2's would succeed
with a terminal descriptor; yet after the tick job 2 is still in the registry,
still `queued` — it was neither fetched-and-updated nor removed, because the
exception aborted the sweep. -/
theorem poll_remote_error_counterexample :
    fetch_err_first (sample_job 1).id = none ∧
    fetch_err_first (sample_job 2).id = some success_desc ∧
    success_desc.status ≠ Status.queued ∧
    sample_job 2 ∈ (poll_jobs fetch_err_first [sample_job 1, sample_job 2]).jobs ∧
    (sample_job 2).status = Status.queued := by
  decide

/-- Claim C1 (amended): when a job's status fetch raises, that job's state is
left unchanged, but the tick is aborted rather than the job skipped: jobs
earlier in the iteration keep the updates (and pings) already applied, jobs
after the erroring one are not fetched or updated at all, and the terminal-job
removal step does not run that tick (the error is logged by the task-level
error handler). -/
theorem poll_remote_error_aborts_sweep (fetch : Nat → Option JobDescriptor)
    (pre : List Job) (j : Job) (post : List Job)
    (hpre : ∀ k ∈ pre, (fetch k.id).isSome)
    (hj : fetch j.id = none) :
    (poll_jobs fetch (pre ++ j :: post)).aborted = true ∧
    (poll_jobs fetch (pre ++ j :: post)).jobs =
      pre.map (updWith fetch) ++ j :: post := by
  obtain ⟨a1, a2⟩ := sweep_abort fetch pre j post hpre hj
  unfold poll_jobs
  simp [a1, a2]

/-- Witness for `poll_remote_error_aborts_sweep` at concrete inputs. -/
theorem poll_remote_error_aborts_sweep_witness :
    (∀ k ∈ [sample_job 2], (fetch_err_first k.id).isSome) ∧
    fetch_err_first (sample_job 1).id = none ∧
    ((poll_jobs fetch_err_first ([sample_job 2] ++ sample_job 1 :: [])).aborted
        = true ∧
     (poll_jobs fetch_err_first ([sample_job 2] ++ sample_job 1 :: [])).jobs =
       [sample_job 2].map (updWith fetch_err_first) ++ sample_job 1 :: []) :=
  ⟨by decide, by decide,
   poll_remote_error_aborts_sweep fetch_err_first [sample_job 2] (sample_job 1)
     [] (by decide) (by decide)⟩

/-- Claim C3: in a tick whose sweep completes (no abort), a tracked job whose
fetched descriptor is terminal is absent from the registry afterwards (no job
with its id remains), and a job whose fetched descriptor leaves it `queued`
remains tracked, in updated form. -/
theorem poll_terminal_removed_queued_kept (fetch : Nat → Option JobDescriptor)
    (jobs : List Job) (hnd : (jobs.map Job.id).Nodup)
    (hab : (poll_jobs fetch jobs).aborted = false)
    (j : Job) (hj : j ∈ jobs) (d : JobDescriptor) (hd : fetch j.id = some d) :
    (d.status ≠ Status.queued →
      ∀ k ∈ (poll_jobs fetch jobs).jobs, k.id ≠ j.id) ∧
    (d.status = Status.queued →
      Job.update j d ∈ (poll_jobs fetch jobs).jobs) := by
  have hs : (sweep fetch jobs).aborted = false := by
    rw [← poll_jobs_aborted]; exact hab
  obtain ⟨e1, _, _⟩ := poll_jobs_noabort fetch jobs hs
  constructor
  · intro hterm k hk hkid
    rw [e1] at hk
    obtain ⟨hkmem, hkq⟩ := List.mem_filter.mp hk
    obtain ⟨j2, hj2, hj2eq⟩ := List.mem_map.mp hkmem
    have hid : j2.id = j.id := by rw [← hkid, ← hj2eq, updWith_id]
    have hjj : j2 = j := List.inj_on_of_nodup_map hnd hj2 hj hid
    subst hjj
    rw [← hj2eq, updWith_of_fetch fetch j2 d hd] at hkq
    have : d.status = Status.queued := by
      simpa [Job.update] using hkq
    exact hterm this
  · intro hq
    rw [e1]
    refine List.mem_filter.mpr
      ⟨List.mem_map.mpr ⟨j, hj, updWith_of_fetch fetch j d hd⟩, ?_⟩
    simp [Job.update, hq]

/-- Witness for `poll_terminal_removed_queued_kept` at concrete inputs. -/
theorem poll_terminal_removed_queued_kept_witness :
    ([sample_job 3, sample_job 4].map Job.id).Nodup ∧
    (poll_jobs fetch_mixed [sample_job 3, sample_job 4]).aborted = false ∧
    sample_job 3 ∈ [sample_job 3, sample_job 4] ∧
    fetch_mixed (sample_job 3).id = some success_desc ∧
    ((success_desc.status ≠ Status.queued →
      ∀ k ∈ (poll_jobs fetch_mixed [sample_job 3, sample_job 4]).jobs,
        k.id ≠ (sample_job 3).id) ∧
     (success_desc.status = Status.queued →
      Job.update (sample_job 3) success_desc ∈
        (poll_jobs fetch_mixed [sample_job 3, sample_job 4]).jobs)) :=
  ⟨by decide, by decide, by decide, by decide,
   poll_terminal_removed_queued_kept fetch_mixed [sample_job 3, sample_job 4]
     (by decide) (by decide) (sample_job 3) (by decide) success_desc
     (by decide)⟩

theorem pingTarget_shape (fetch : Nat → Option JobDescriptor) (k : Job) :
    pingTarget fetch k = none ∨ pingTarget fetch k = some (k.id, k.user_id) := by
  unfold pingTarget
  cases fetch k.id with
  | none => exact Or.inl rfl
  | some d =>
    by_cases h : d.status ≠ Status.queued ∧ k.ping_on_completion
    · exact Or.inr (by simp [h])
    · exact Or.inl (by simp [h])

theorem pings_count_of_nodup (fetch : Nat → Option JobDescriptor)
    (jobs : List Job) (j : Job)
    (hnd : (jobs.map Job.id).Nodup) (hj : j ∈ jobs) :
    (jobs.filterMap (pingTarget fetch)).count (j.id, j.user_id) =
      if pingTarget fetch j = some (j.id, j.user_id) then 1 else 0 := by
  induction jobs with
  | nil => cases hj
  | cons k rest ih =>
    have hknotin : k.id ∉ rest.map Job.id := (List.nodup_cons.mp hnd).1
    have hnd2 : (rest.map Job.id).Nodup := (List.nodup_cons.mp hnd).2
    rcases List.mem_cons.mp hj with hjk | hjrest
    · subst hjk
      have htail : (rest.filterMap (pingTarget fetch)).count (j.id, j.user_id)
          = 0 := by
        rw [List.count_eq_zero]
        intro hmem
        obtain ⟨x, hx, hpx⟩ := List.mem_filterMap.mp hmem
        rcases pingTarget_shape fetch x with h0 | h1
        · rw [h0] at hpx; cases hpx
        · rw [h1] at hpx
          have hxid : x.id = j.id := congrArg Prod.fst (Option.some.inj hpx)
          exact hknotin (hxid ▸ List.mem_map_of_mem Job.id hx)
      rcases pingTarget_shape fetch j with h0 | h1
      · simp [List.filterMap_cons, h0, htail]
      · simp [List.filterMap_cons, h1, List.count_cons, htail]
    · have hne : (j.id, j.user_id) ≠ (k.id, k.user_id) := by
        intro he
        have h1 : j.id = k.id := congrArg Prod.fst he
        exact hknotin (h1 ▸ List.mem_map_of_mem Job.id hjrest)
      rcases pingTarget_shape fetch k with h0 | h1
      · simp [List.filterMap_cons, h0, ih hnd2 hjrest]
      · simp [List.filterMap_cons, h1, List.count_cons, hne,
          ih hnd2 hjrest]

/-- Claim C4: in a tick whose sweep completes, a tracked job whose fetched
descriptor is terminal has its updated status rendered to its message, and the
targeted ping mentioning its owner is delivered exactly once when
`ping_on_completion` is set and not at all otherwise; a job whose update leaves
it `queued` receives no ping. -/
theorem poll_terminal_render_and_ping (fetch : Nat → Option JobDescriptor)
    (jobs : List Job) (hnd : (jobs.map Job.id).Nodup)
    (hab : (poll_jobs fetch jobs).aborted = false)
    (j : Job) (hj : j ∈ jobs) (d : JobDescriptor) (hd : fetch j.id = some d) :
    (d.status ≠ Status.queued →
      j.id ∈ (poll_jobs fetch jobs).renders ∧
      (poll_jobs fetch jobs).pings.count (j.id, j.user_id) =
        if j.ping_on_completion then 1 else 0) ∧
    (d.status = Status.queued →
      (j.id, j.user_id) ∉ (poll_jobs fetch jobs).pings) := by
  have hs : (sweep fetch jobs).aborted = false := by
    rw [← poll_jobs_aborted]; exact hab
  obtain ⟨_, e2, e3⟩ := poll_jobs_noabort fetch jobs hs
  have hptj : pingTarget fetch j =
      if d.status ≠ Status.queued ∧ j.ping_on_completion then
        some (j.id, j.user_id)
      else none := by
    unfold pingTarget
    rw [hd]
  constructor
  · intro hterm
    refine ⟨?_, ?_⟩
    · rw [e2]
      exact List.mem_map_of_mem Job.id hj
    · rw [e3, pings_count_of_nodup fetch jobs j hnd hj]
      by_cases hping : j.ping_on_completion
      · have hsome : pingTarget fetch j = some (j.id, j.user_id) := by
          rw [hptj]
          exact if_pos ⟨hterm, hping⟩
        rw [hsome]
        simp [hping]
      · have h0 : pingTarget fetch j = none := by
          rw [hptj]
          exact if_neg (fun hc => hping hc.2)
        rw [h0]
        simp [hping]
  · intro hq
    have h0 : pingTarget fetch j = none := by
      rw [hptj, if_neg]
      intro hc
      exact hc.1 hq
    rw [e3]
    refine List.count_eq_zero.mp ?_
    rw [pings_count_of_nodup fetch jobs j hnd hj, h0]
    simp

/-- Witness for `poll_terminal_render_and_ping` at concrete inputs. -/
theorem poll_terminal_render_and_ping_witness :
    ([sample_job_ping 3, sample_job 4].map Job.id).Nodup ∧
    (poll_jobs fetch_mixed [sample_job_ping 3, sample_job 4]).aborted = false ∧
    sample_job_ping 3 ∈ [sample_job_ping 3, sample_job 4] ∧
    fetch_mixed (sample_job_ping 3).id = some success_desc ∧
    ((success_desc.status ≠ Status.queued →
      (sample_job_ping 3).id ∈
        (poll_jobs fetch_mixed [sample_job_ping 3, sample_job 4]).renders ∧
      (poll_jobs fetch_mixed [sample_job_ping 3, sample_job 4]).pings.count
          ((sample_job_ping 3).id, (sample_job_ping 3).user_id) =
        if (sample_job_ping 3).ping_on_completion then 1 else 0) ∧
     (success_desc.status = Status.queued →
      ((sample_job_ping 3).id, (sample_job_ping 3).user_id) ∉
        (poll_jobs fetch_mixed [sample_job_ping 3, sample_job 4]).pings)) :=
  ⟨by decide, by decide, by decide, by decide,
   poll_terminal_render_and_ping fetch_mixed [sample_job_ping 3, sample_job 4]
     (by decide) (by decide) (sample_job_ping 3) (by decide) success_desc
     (by decide)⟩

/-- Claim C5: when a session for the identity is already cached and fresh (last
authentication at most 12 hours ago), `get_user` returns the cached session
unchanged without showing the login modal and without any `sign_in` call; when
more than 12 hours have elapsed, the session is signed in again in place (token
and timestamp replaced) before being returned, still without the modal. -/
theorem get_user_cached_session (now : Int) (fresh_token : Nat)
    (creds : Option (String × String)) (user_list : List (Nat × User))
    (uid : Nat) (u : User) (hc : lookup_user user_list uid = some u) :
    (now - u.last_login ≤ 12 →
      get_user now fresh_token creds user_list uid =
        some { user := u, user_list := user_list,
               modal_shown := false, sign_in_calls := 0 }) ∧
    (now - u.last_login > 12 →
      get_user now fresh_token creds user_list uid =
        some { user := sign_in now fresh_token u,
               user_list := add_user user_list uid (sign_in now fresh_token u),
               modal_shown := false, sign_in_calls := 1 }) := by
  constructor
  · intro hfresh
    have hnot : ¬ (now - u.last_login > 12) := by omega
    simp [get_user, hc, hnot]
  · intro hstale
    simp [get_user, hc, hstale]

/-- Witness for `get_user_cached_session` at concrete inputs. -/
theorem get_user_cached_session_witness :
    lookup_user [(7, cached_user)] 7 = some cached_user ∧
    (((105 : Int) - cached_user.last_login ≤ 12 →
      get_user 105 99 none [(7, cached_user)] 7 =
        some { user := cached_user, user_list := [(7, cached_user)],
               modal_shown := false, sign_in_calls := 0 }) ∧
     ((105 : Int) - cached_user.last_login > 12 →
      get_user 105 99 none [(7, cached_user)] 7 =
        some { user := sign_in 105 99 cached_user,
               user_list := add_user [(7, cached_user)] 7
                 (sign_in 105 99 cached_user),
               modal_shown := false, sign_in_calls := 1 })) :=
  ⟨by decide,
   get_user_cached_session 105 99 none [(7, cached_user)] 7 cached_user
     (by decide)⟩

end R4N
